import Mathlib

/-!
Formal model of `github_repo_list_with_dependabot_alerts_csv.py`.

The script enumerates the repositories of a GitHub organization, fetches each
repository's most recent commit (`last_commit`), aggregates open HIGH/CRITICAL
dependency-alert counts (`getDependencyAlerts` over cursor pages obtained via
`run_query`), assembles one record per repository (`list_repos`), and finally
sorts the records by commit date descending (`main`).

Modelling conventions:
- JSON values that the script manipulates are modelled by the inductive `Json`
  (null, string, array, object); the leaves the script ever inspects are
  strings, so other JSON scalars are not needed.
- Python exceptions are modelled by `PyExc`; fallible code returns
  `Except PyExc _`.  Subscription `x[k]` is `pySub`, the `in` operator is
  `pyIn`, `for`-iteration is `pyIterate`; each mirrors Python semantics on the
  corresponding value shapes (a missing dict key raises `KeyError`, an
  out-of-range list index raises `IndexError`, subscripting a list with a
  string key raises `TypeError`, and so on).
- A vulnerability-alert node is modelled by the structure `Alert`; its three
  optional fields are falsy in Python exactly when absent (`None`) or an empty
  string, which `pyFalsyStr` captures; the `dismisser` sub-object is present
  iff non-null.
- The network is abstracted by the page traces the server returns: the REST
  repository listing is a `List ListPage` (body plus optional `next` link) and
  the GraphQL alert pagination is a `List AlertPage` (totalCount, nodes,
  hasNextPage); `collectAlerts` returns `none` when the trace ends while the
  server still promises a next page, a situation the loop in the script would
  resolve only by issuing a further request.
- `last_commit` and `getDependencyAlerts` are invoked by `list_repos` through
  explicit function parameters `fc`/`fa`, standing for the per-repository HTTP
  round trips.
- Python string comparison (used by `sorted(..., key=lambda r: r[1],
  reverse=True)`) is lexicographic on code points; `pyStrLe` implements it
  executably and `pyStrLe_le_iff` identifies it with Mathlib's linear order on
  `String`, which is lexicographic on the character list.
-/

/-- JSON values as the script sees them after `json.loads` / `request.json()`. -/
inductive Json where
  | null : Json
  | str (s : String) : Json
  | arr (elems : List Json) : Json
  | obj (fields : List (String × Json)) : Json

/-- Python exceptions raised by the modelled code paths.  `exceptionVal c`
models `raise Exception(content)` (the raised error carries the raw response
content `c`); `exceptionMsg m` models `raise Exception(m)` for a string
message. -/
inductive PyExc where
  | keyError : PyExc
  | indexError : PyExc
  | typeError : PyExc
  | attributeError : PyExc
  | exceptionVal (content : Json) : PyExc
  | exceptionMsg (msg : String) : PyExc

/-- A Python subscript: an integer index or a string key. -/
inductive PyKey where
  | idx (n : Nat) : PyKey
  | key (s : String) : PyKey

/-- First binding of a key in a JSON object (Python dict lookup). -/
def Json.lookup (fields : List (String × Json)) (k : String) : Option Json :=
  (fields.find? (fun p => p.1 == k)).map (fun p => p.2)

/-- Whether `needle` occurs as a contiguous sublist of the scanned list. -/
def infixScan (needle : List Char) : List Char → Bool
  | [] => needle.isEmpty
  | c :: rest => needle.isPrefixOf (c :: rest) || infixScan needle rest

/-- Python substring test `needle in haystack` on strings. -/
def strContains (haystack needle : String) : Bool :=
  infixScan needle.data haystack.data

/-- Python `str.startswith`. -/
def pyStartsWith (s pre : String) : Bool := pre.data.isPrefixOf s.data

/-- Python subscription `v[k]`, with Python's exception behaviour on each
value/key shape. -/
def pySub : Json → PyKey → Except PyExc Json
  | .obj fields, .key k =>
    match Json.lookup fields k with
    | some v => .ok v
    | none => .error .keyError
  | .obj _, .idx _ => .error .keyError
  | .arr elems, .idx n =>
    match elems[n]? with
    | some v => .ok v
    | none => .error .indexError
  | .arr _, .key _ => .error .typeError
  | .str s, .idx n =>
    match s.data[n]? with
    | some c => .ok (.str (String.mk [c]))
    | none => .error .indexError
  | .str _, .key _ => .error .typeError
  | .null, _ => .error .typeError

/-- Python membership `needle in v` for a string needle: substring test on
strings, element equality on lists (a non-string element never equals a
string), key membership on dicts, `TypeError` on `None`. -/
def pyIn (needle : String) : Json → Except PyExc Bool
  | .str s => .ok (strContains s needle)
  | .arr elems => .ok (elems.any (fun j => match j with | .str s => s == needle | _ => false))
  | .obj fields => .ok (Json.lookup fields needle).isSome
  | .null => .error .typeError

/-- Python `for`-iteration over a JSON value: list elements, dict keys,
characters of a string; `TypeError` on `None`. -/
def pyIterate : Json → Except PyExc (List Json)
  | .arr elems => .ok elems
  | .obj fields => .ok (fields.map (fun p => Json.str p.1))
  | .str s => .ok (s.data.map (fun c => Json.str (String.mk [c])))
  | .null => .error .typeError

/-- Model of `last_commit` (lines 43-60 of the script), applied to the parsed
commit-list response body.  The `try` block reads
`content[0]["commit"]["committer"]["date"]`, the author email (redacting any
email containing `"github"` to `"none"`), and the author name; only a
`KeyError` reaches the handler, which returns the sentinel triple when the
body carries the message `"Git Repository is empty."` and otherwise raises
`Exception(content)`. -/
def last_commit (content : Json) : Except PyExc (Json × Json × Json) :=
  let attempt : Except PyExc (Json × Json × Json) := do
    let commit_date ← pySub content (.idx 0) >>= (pySub · (.key "commit"))
        >>= (pySub · (.key "committer")) >>= (pySub · (.key "date"))
    let email0 ← pySub content (.idx 0) >>= (pySub · (.key "commit"))
        >>= (pySub · (.key "author")) >>= (pySub · (.key "email"))
    let hasGithub ← pyIn "github" email0
    let email := if hasGithub then Json.str "none" else email0
    let author ← pySub content (.idx 0) >>= (pySub · (.key "commit"))
        >>= (pySub · (.key "author")) >>= (pySub · (.key "name"))
    pure (commit_date, email, author)
  match attempt with
  | .ok t => .ok t
  | .error .keyError =>
    match pyIn "message" content with
    | .ok true =>
      match pySub content (.key "message") with
      | .ok (.str m) =>
        if m == "Git Repository is empty." then .ok (.str "<empty_repo>", .str "", .str "")
        else .error (.exceptionVal content)
      | .ok _ => .error (.exceptionVal content)
      | .error e => .error e
    | .ok false => .error (.exceptionVal content)
    | .error e => .error e
  | .error e => .error e

/-- The shape of a well-formed commit-list response: a one-element array whose
entry carries the committer date and the author email and name, as the GitHub
commits endpoint returns them. -/
def mkCommitResponse (date email author : String) : Json :=
  .arr [.obj [("commit", .obj [
      ("committer", .obj [("date", .str date)]),
      ("author", .obj [("email", .str email), ("name", .str author)])])]]

/-- Whether an object body carries the known empty-repository marker
`"message": "Git Repository is empty."`. -/
def hasEmptyRepoMsg (fields : List (String × Json)) : Bool :=
  match Json.lookup fields "message" with
  | some (.str m) => m == "Git Repository is empty."
  | _ => false

/-- One vulnerability-alert node as selected by the GraphQL query: optional
dismissal timestamp, optional fix timestamp, optional dismisser (its login),
and the advisory severity label. -/
structure Alert where
  dismissedAt : Option String
  fixedAt : Option String
  dismisser : Option String
  severity : String

/-- Python falsiness of an optional string field: absent (`None`) or empty. -/
def pyFalsyStr (o : Option String) : Bool :=
  match o with
  | none => true
  | some s => s == ""

/-- The openness test of line 156: `not alert.get('dismissedAt') and not
alert.get('fixedAt') and not alert.get('dismisser')`. -/
def alertOpen (a : Alert) : Bool :=
  pyFalsyStr a.dismissedAt && pyFalsyStr a.fixedAt && a.dismisser.isNone

/-- One step of the counting loop of lines 154-160. -/
def countStep (p : Nat × Nat) (a : Alert) : Nat × Nat :=
  if alertOpen a then
    if a.severity == "CRITICAL" then (p.1 + 1, p.2)
    else if a.severity == "HIGH" then (p.1, p.2 + 1)
    else p
  else p

/-- The counting loop of `getDependencyAlerts`: starting from
`critical, high = 0, 0`, returns the pair `(critical, high)`. -/
def countAlerts (alerts : List Alert) : Nat × Nat :=
  alerts.foldl countStep (0, 0)

/-- An alert that the loop counts toward `critical`. -/
def isOpenCritical (a : Alert) : Bool := alertOpen a && a.severity == "CRITICAL"

/-- An alert that the loop counts toward `high`. -/
def isOpenHigh (a : Alert) : Bool := alertOpen a && a.severity == "HIGH"

/-- Number of open CRITICAL alerts in a list. -/
def openCriticalCount (alerts : List Alert) : Nat := (alerts.filter isOpenCritical).length

/-- Number of open HIGH alerts in a list. -/
def openHighCount (alerts : List Alert) : Nat := (alerts.filter isOpenHigh).length

/-- One page of the cursor-paginated GraphQL alert query: the server-declared
`totalCount`, the `nodes` of this page, and `pageInfo.hasNextPage`. -/
structure AlertPage where
  totalCount : Nat
  nodes : List Alert
  hasNextPage : Bool

/-- The pagination loop of lines 140-149: accumulate the nodes of successive
pages, keep the most recent `totalCount`, stop after the first page with
`hasNextPage = false`.  Returns `none` when the trace ends while the server
still promises a next page (the loop would issue another request). -/
def collectAlerts : List AlertPage → Option (List Alert × Nat)
  | [] => none
  | p :: rest =>
    if p.hasNextPage then
      (collectAlerts rest).map (fun r => (p.nodes ++ r.1, r.2))
    else
      some (p.nodes, p.totalCount)

/-- The message of the fatal count-mismatch raise at line 152. -/
def mismatchMsg : String := "graphql call not functioning properly,"

/-- Model of `getDependencyAlerts` (lines 106-161) applied to the page trace
the server returns: after the pagination loop, raise when the accumulated node
count differs from the declared total, otherwise run the counting loop and
return `(critical, high)`. -/
def getDependencyAlerts (pages : List AlertPage) : Option (Except PyExc (Nat × Nat)) :=
  (collectAlerts pages).map (fun r =>
    if r.1.length = r.2 then .ok (countAlerts r.1)
    else .error (.exceptionMsg mismatchMsg))

/-- Model of `run_query` (lines 96-103) applied to the response: on status 200
return `request.json()['data']`, otherwise raise with a message carrying the
status code and the query text. -/
def run_query (query : String) (status : Nat) (body : Json) : Except PyExc Json :=
  if status == 200 then pySub body (.key "data")
  else .error (.exceptionMsg
    ("Query failed to run by returning code of " ++ toString status ++ ". " ++ query))

/-- A Repository Record as appended at line 84:
`(repo, commit_date, high, critical, email, author)` with the script's
variable names; the numeric components hold whatever the unpacking
`high, critical = getDependencyAlerts(...)` bound them to. -/
abbrev RepoRecord := String × String × Nat × Nat × String × String

/-- One page of the REST repository listing: the parsed body and the `next`
link of the response metadata, when present. -/
structure ListPage where
  content : Json
  nextUrl : Option String

/-- The first break condition of line 70:
`"message" in content and content["message"].startswith("API rate limit exceeded")`. -/
def isRateLimitMsg (content : Json) : Except PyExc Bool := do
  let has ← pyIn "message" content
  if has then do
    let m ← pySub content (.key "message")
    match m with
    | .str s => pure (pyStartsWith s "API rate limit exceeded")
    | _ => .error .attributeError
  else pure false

/-- The second break condition of line 73:
`"message" in content and content["message"] == "Not Found"`. -/
def isNotFoundMsg (content : Json) : Except PyExc Bool := do
  let has ← pyIn "message" content
  if has then do
    let m ← pySub content (.key "message")
    pure (match m with | .str s => s == "Not Found" | _ => false)
  else pure false

/-- Whether the listing loop breaks on this page body (lines 70-75): the two
message checks in order. -/
def breakCheck (content : Json) : Except PyExc Bool := do
  let b1 ← isRateLimitMsg content
  if b1 then pure true
  else isNotFoundMsg content

/-- The loop body of lines 77-84 for one repository entry: read
`item["name"]`, fetch the last commit triple, fetch the alert counts, and
assemble the record.  Note the unpacking `high, critical = fa repo` against an
`fa` that returns `(critical, high)`. -/
def procItem (fc : String → Except PyExc (String × String × String))
    (fa : String → Except PyExc (Nat × Nat)) (item : Json) :
    Except PyExc RepoRecord := do
  let nameJ ← pySub item (.key "name")
  match nameJ with
  | .str repo => do
    let (commit_date, email, author) ← fc repo
    let (high, critical) ← fa repo
    pure (repo, commit_date, high, critical, email, author)
  | _ => .error .typeError

/-- Sequential processing of the entries of one page. -/
def procItems (fc : String → Except PyExc (String × String × String))
    (fa : String → Except PyExc (Nat × Nat)) :
    List Json → Except PyExc (List RepoRecord)
  | [] => .ok []
  | item :: rest => do
    let r ← procItem fc fa item
    let rs ← procItems fc fa rest
    pure (r :: rs)

/-- Model of `list_repos` (lines 63-90) over the page trace the server
returns, with the per-repository fetches abstracted as `fc` (`last_commit`)
and `fa` (`getDependencyAlerts`): for each page, break out of the loop when a
message check fires (keeping the records accumulated so far), otherwise
process the page's entries and continue while a `next` link is present. -/
def list_repos (fc : String → Except PyExc (String × String × String))
    (fa : String → Except PyExc (Nat × Nat)) :
    List ListPage → Except PyExc (List RepoRecord)
  | [] => .ok []
  | p :: rest => do
    let brk ← breakCheck p.content
    if brk then .ok []
    else do
      let items ← pyIterate p.content
      let recs ← procItems fc fa items
      match p.nextUrl with
      | some _ => do
        let more ← list_repos fc fa rest
        pure (recs ++ more)
      | none => pure recs

/-- Python `<=` on character lists: lexicographic by code point. -/
def pyListLe : List Char → List Char → Bool
  | [], _ => true
  | _ :: _, [] => false
  | a :: as, b :: bs => if a = b then pyListLe as bs else decide (a < b)

/-- Python `<=` on strings: lexicographic by code point, as used by the
tuple-key comparison in `sorted(repos_data, key=lambda r: r[1], reverse=True)`. -/
def pyStrLe (s t : String) : Bool := pyListLe s.data t.data

/-- The sort key of line 167: the record's second component, the commit date. -/
def recKey (r : RepoRecord) : String := r.2.1

/-- The descending comparison realised by `reverse=True`: `a` may precede `b`
iff the key of `b` is at most the key of `a`. -/
def recDesc (a b : RepoRecord) : Prop := pyStrLe (recKey b) (recKey a) = true

instance : DecidableRel recDesc :=
  fun a b => inferInstanceAs (Decidable (pyStrLe (recKey b) (recKey a) = true))

/-- Model of line 167: `repos_sorted = sorted(repos_data, key=lambda r: r[1],
reverse=True)`, realised by a sort that is sorted with respect to `recDesc`
and a permutation of the input. -/
def sortRecords (rs : List RepoRecord) : List RepoRecord :=
  List.insertionSort recDesc rs

/-- Whether a string starts with a decimal digit (code points 48-57). -/
def startsWithDigit (s : String) : Bool :=
  match s.data with
  | [] => false
  | c :: _ => 48 ≤ c.toNat && c.toNat ≤ 57

/-! ### Concrete inputs used by witnesses and counterexamples -/

/-- One alert list holding a single open HIGH alert. -/
def cexAlerts : List Alert := [⟨none, none, none, "HIGH"⟩]

/-- A single complete alert page declaring the matching total 1. -/
def cexPages : List AlertPage := [⟨1, cexAlerts, false⟩]

/-- A concrete commit fetcher. -/
def cexFc : String → Except PyExc (String × String × String) :=
  fun _ => .ok ("2024-01-01T10:00:00Z", "dev@example.com", "Alice")

/-- A concrete alert fetcher returning what `getDependencyAlerts` returns on
`cexPages`, namely the pair `(critical, high) = (0, 1)`. -/
def cexFa : String → Except PyExc (Nat × Nat) := fun _ => .ok (0, 1)

/-- A one-repository listing page with no next link. -/
def cexListPage : ListPage := ⟨.arr [.obj [("name", .str "repo-a")]], none⟩

/-- A complete alert trace: one CRITICAL alert on a first page promising more,
one dismissed HIGH alert on the final page, declared total 2. -/
def wPagesPre : List AlertPage := [⟨2, [⟨none, none, none, "CRITICAL"⟩], true⟩]

/-- The final page of the two-page alert trace. -/
def wPageLast : AlertPage := ⟨2, [⟨some "2024-01-02T00:00:00Z", none, none, "HIGH"⟩], false⟩

/-- Two records, one dated and one with the empty-repository sentinel. -/
def wRecords : List RepoRecord :=
  [("repo-a", "2023-01-01", 0, 0, "dev@example.com", "Alice"),
   ("repo-b", "<empty_repo>", 0, 0, "", "")]

/-! ### Helper lemmas -/

theorem infixScan_iff (needle hay : List Char) :
    infixScan needle hay = true ↔ List.IsInfix needle hay := by
  induction hay with
  | nil =>
    simp only [infixScan, List.isEmpty_iff, List.infix_nil]
  | cons c rest ih =>
    simp [infixScan, List.infix_cons_iff, ih]

theorem pyListLe_iff_not_lex (as bs : List Char) :
    pyListLe as bs = true ↔ ¬ List.Lex (· < ·) bs as := by
  induction as generalizing bs with
  | nil =>
    simp only [pyListLe]
    constructor
    · intro _ h
      exact List.Lex.not_nil_right _ _ h
    · intro _
      trivial
  | cons a as ih =>
    cases bs with
    | nil =>
      simp only [pyListLe]
      constructor
      · intro h
        exact absurd h (by simp)
      · intro h
        exact absurd List.Lex.nil h
    | cons b bs =>
      simp only [pyListLe]
      by_cases hab : a = b
      · subst hab
        rw [if_pos rfl, ih]
        constructor
        · intro h hlex
          exact h (List.Lex.cons_iff.mp hlex)
        · intro h hlex
          exact h (List.Lex.cons hlex)
      · rw [if_neg hab]
        constructor
        · intro h hlex
          cases hlex with
          | rel h2 => exact absurd (of_decide_eq_true h) (asymm h2)
          | cons _ => exact hab rfl
        · intro h
          rcases lt_trichotomy a b with h1 | h1 | h1
          · exact decide_eq_true h1
          · exact absurd h1 hab
          · exact absurd (List.Lex.rel h1) h

theorem pyListLe_le_iff (as bs : List Char) : pyListLe as bs = true ↔ as ≤ bs := by
  rw [pyListLe_iff_not_lex]
  constructor
  · intro h
    exact le_of_not_lt h
  · intro h
    exact not_lt.mpr h

theorem pyStrLe_le_iff (s t : String) : pyStrLe s t = true ↔ s ≤ t := by
  rw [String.le_iff_toList_le]
  exact pyListLe_le_iff s.data t.data

instance : IsTotal RepoRecord recDesc := by
  constructor
  intro a b
  rcases le_total (recKey b) (recKey a) with h | h
  · exact Or.inl ((pyStrLe_le_iff _ _).mpr h)
  · exact Or.inr ((pyStrLe_le_iff _ _).mpr h)

instance : IsTrans RepoRecord recDesc := by
  constructor
  intro a b c h1 h2
  exact (pyStrLe_le_iff _ _).mpr
    (le_trans ((pyStrLe_le_iff _ _).mp h2) ((pyStrLe_le_iff _ _).mp h1))

theorem startsWithDigit_lt_sentinel (s : String) (h : startsWithDigit s = true) :
    s < "<empty_repo>" := by
  rw [String.lt_iff_toList_lt]
  unfold startsWithDigit at h
  rcases hd : s.data with _ | ⟨c, cs⟩
  · rw [hd] at h
    simp at h
  · rw [hd] at h
    have hc : c.toNat ≤ 57 := by
      simp only [Bool.and_eq_true, decide_eq_true_eq] at h
      exact h.2
    have hlt : c < '<' := by
      apply Char.lt_iff_val_lt_val.mpr
      show c.val < ('<' : Char).val
      have h60 : ('<' : Char).toNat = 60 := by decide
      have : c.toNat < ('<' : Char).toNat := by omega
      exact this
    show List.Lex (· < ·) s.toList "<empty_repo>".toList
    have hts : s.toList = c :: cs := hd
    rw [hts]
    exact List.Lex.rel hlt

theorem countStep_of_critical (p : Nat × Nat) (a : Alert) (h : isOpenCritical a = true) :
    countStep p a = (p.1 + 1, p.2) := by
  simp only [isOpenCritical, Bool.and_eq_true] at h
  simp [countStep, h.1, h.2]

theorem countStep_of_high (p : Nat × Nat) (a : Alert) (h : isOpenHigh a = true) :
    countStep p a = (p.1, p.2 + 1) := by
  simp only [isOpenHigh, Bool.and_eq_true] at h
  have hs : a.severity = "HIGH" := by
    have := h.2
    simpa using this
  simp [countStep, h.1, hs]

theorem countStep_of_other (p : Nat × Nat) (a : Alert)
    (h1 : isOpenCritical a = false) (h2 : isOpenHigh a = false) :
    countStep p a = p := by
  by_cases ho : alertOpen a = true
  · simp only [isOpenCritical, ho, Bool.true_and] at h1
    simp only [isOpenHigh, ho, Bool.true_and] at h2
    simp [countStep, ho, h1, h2]
  · simp [countStep, Bool.eq_false_iff.mpr ho]

theorem critical_not_high (a : Alert) (h : isOpenCritical a = true) :
    isOpenHigh a = false := by
  simp only [isOpenCritical, Bool.and_eq_true] at h
  have hs : a.severity = "CRITICAL" := by
    have := h.2
    simpa using this
  simp [isOpenHigh, hs]

theorem countAlerts_foldl (l : List Alert) (c h : Nat) :
    l.foldl countStep (c, h)
      = (c + openCriticalCount l, h + openHighCount l) := by
  induction l generalizing c h with
  | nil => simp [openCriticalCount, openHighCount]
  | cons a t ih =>
    simp only [List.foldl_cons]
    rcases hoc : isOpenCritical a with _ | _
    · rcases hoh : isOpenHigh a with _ | _
      · rw [countStep_of_other (c, h) a hoc hoh, ih]
        simp [openCriticalCount, openHighCount, List.filter_cons, hoc, hoh]
      · rw [countStep_of_high (c, h) a hoh, ih]
        have hcc : openCriticalCount (a :: t) = openCriticalCount t := by
          simp [openCriticalCount, List.filter_cons, hoc]
        have hhh : openHighCount (a :: t) = openHighCount t + 1 := by
          simp [openHighCount, List.filter_cons, hoh]
        rw [hcc, hhh]
        have harith : h + 1 + openHighCount t = h + (openHighCount t + 1) := by omega
        rw [harith]
    · rw [countStep_of_critical (c, h) a hoc, ih]
      have hoh := critical_not_high a hoc
      have hcc : openCriticalCount (a :: t) = openCriticalCount t + 1 := by
        simp [openCriticalCount, List.filter_cons, hoc]
      have hhh : openHighCount (a :: t) = openHighCount t := by
        simp [openHighCount, List.filter_cons, hoh]
      rw [hcc, hhh]
      have harith : c + 1 + openCriticalCount t = c + (openCriticalCount t + 1) := by omega
      rw [harith]

theorem countAlerts_eq (l : List Alert) :
    countAlerts l = (openCriticalCount l, openHighCount l) := by
  simpa using countAlerts_foldl l 0 0

theorem collectAlerts_append (ps : List AlertPage) (plast : AlertPage)
    (h1 : ∀ p ∈ ps, p.hasNextPage = true) (h2 : plast.hasNextPage = false) :
    collectAlerts (ps ++ [plast])
      = some (((ps ++ [plast]).map AlertPage.nodes).flatten, plast.totalCount) := by
  induction ps with
  | nil => simp [collectAlerts, h2]
  | cons p t ih =>
    have hp : p.hasNextPage = true := h1 p (List.mem_cons_self p t)
    have ht : ∀ q ∈ t, q.hasNextPage = true :=
      fun q hq => h1 q (List.mem_cons_of_mem p hq)
    simp only [List.cons_append, collectAlerts, hp, if_true, List.append_eq, ih ht,
      Option.map_some, List.map_cons, List.flatten_cons]
    rfl

theorem breakCheck_obj_msg (fields : List (String × Json)) (m : String)
    (hm : Json.lookup fields "message" = some (.str m)) :
    breakCheck (.obj fields)
      = .ok (pyStartsWith m "API rate limit exceeded" || m == "Not Found") := by
  simp only [breakCheck, isRateLimitMsg, isNotFoundMsg, pyIn, pySub, hm, Option.isSome_some,
    bind, Except.bind, if_true, pure, Except.pure]
  rcases hrl : pyStartsWith m "API rate limit exceeded" with _ | _
  · simp
  · simp

theorem list_repos_append_break
    (fc : String → Except PyExc (String × String × String))
    (fa : String → Except PyExc (Nat × Nat))
    (pre : List ListPage) (errPage : ListPage) (suf : List ListPage)
    (hpre : ∀ p ∈ pre, breakCheck p.content = .ok false ∧ p.nextUrl.isSome = true)
    (herr : breakCheck errPage.content = .ok true) :
    list_repos fc fa (pre ++ errPage :: suf) = list_repos fc fa pre := by
  induction pre with
  | nil =>
    simp only [List.nil_append, list_repos, herr, bind, Except.bind, if_true]
  | cons p t ih =>
    have hp := hpre p (List.mem_cons_self p t)
    have ht : ∀ q ∈ t, breakCheck q.content = .ok false ∧ q.nextUrl.isSome = true :=
      fun q hq => hpre q (List.mem_cons_of_mem p hq)
    rcases hu : p.nextUrl with _ | u
    · rw [hu] at hp
      simp at hp
    · simp [List.cons_append, list_repos, hp.1, bind, Except.bind, hu, List.append_eq,
        ih ht]

/-! ### Claim theorems -/

/-- C2: the counting loop counts an alert toward the critical count iff it is
open (falsy dismissal timestamp, falsy fix timestamp, no dismisser) and its
severity label equals exactly "CRITICAL", and toward the high count iff it is
open and its severity equals exactly "HIGH"; all other alerts contribute to
neither count.  Stated as: `countAlerts` returns exactly the lengths of the
two filtered sublists, so an alert is counted in a component iff it satisfies
that component's predicate, and alerts failing both predicates are counted
nowhere. -/
theorem countAlerts_open_severity (alerts : List Alert) :
    countAlerts alerts
      = ((alerts.filter (fun a => alertOpen a && a.severity == "CRITICAL")).length,
         (alerts.filter (fun a => alertOpen a && a.severity == "HIGH")).length) := by
  rw [countAlerts_eq]
  rfl

/-- C3: on a complete page trace (every earlier page promises a next page and
the last does not), the aggregator raises the fatal mismatch error iff the
nodes accumulated across all pages differ in number from the server-declared
total count (the one on the final page, which the loop keeps), and when they
agree it proceeds to the counting loop. -/
theorem getDependencyAlerts_count_invariant (ps : List AlertPage) (plast : AlertPage)
    (h1 : ∀ p ∈ ps, p.hasNextPage = true) (h2 : plast.hasNextPage = false) :
    getDependencyAlerts (ps ++ [plast])
      = some (if (((ps ++ [plast]).map AlertPage.nodes).flatten).length = plast.totalCount
          then .ok (countAlerts (((ps ++ [plast]).map AlertPage.nodes).flatten))
          else .error (.exceptionMsg mismatchMsg)) := by
  simp only [getDependencyAlerts, collectAlerts_append ps plast h1 h2, Option.map_some]
  rfl

/-- Witness for C3 on a concrete two-page trace with matching total 2. -/
theorem getDependencyAlerts_count_invariant_witness :
    getDependencyAlerts (wPagesPre ++ [wPageLast])
      = some (if (((wPagesPre ++ [wPageLast]).map AlertPage.nodes).flatten).length
            = wPageLast.totalCount
          then .ok (countAlerts (((wPagesPre ++ [wPageLast]).map AlertPage.nodes).flatten))
          else .error (.exceptionMsg mismatchMsg)) :=
  getDependencyAlerts_count_invariant wPagesPre wPageLast (by decide) (by decide)

/-- C5: a commit-list response that signals an empty repository through its
message field makes `last_commit` return exactly the sentinel triple
`("<empty_repo>", "", "")`, raising nothing. -/
theorem last_commit_empty_repo_sentinel (fields : List (String × Json))
    (h : Json.lookup fields "message" = some (.str "Git Repository is empty.")) :
    last_commit (.obj fields) = .ok (.str "<empty_repo>", .str "", .str "") := by
  simp only [last_commit, pySub, pyIn, bind, Except.bind, h, Option.isSome_some]
  rfl

/-- Witness for C5 on the concrete empty-repository response body. -/
theorem last_commit_empty_repo_sentinel_witness :
    last_commit (.obj [("message", .str "Git Repository is empty.")])
      = .ok (.str "<empty_repo>", .str "", .str "") :=
  last_commit_empty_repo_sentinel [("message", .str "Git Repository is empty.")] rfl

/-- Counterexample for C6: the empty JSON array lacks the expected commit
fields and carries no empty-repository message, yet `last_commit` raises
`IndexError` (from `content[0]`), which does not carry the raw response
content: the claim that every such response raises an error carrying the raw
content is false at this input. -/
theorem last_commit_empty_array_counterexample :
    last_commit (.arr []) = .error .indexError
    ∧ PyExc.indexError ≠ PyExc.exceptionVal (.arr []) :=
  ⟨rfl, fun h => PyExc.noConfusion h⟩

/-- C6 (amended): a commit-list response that is a JSON object not carrying
the empty-repository marker aborts the run by raising an error that carries
the raw response content; an empty commit array instead aborts with an index
error that does not carry the content. -/
theorem last_commit_unexpected_object_raises (fields : List (String × Json))
    (h : hasEmptyRepoMsg fields = false) :
    last_commit (.obj fields) = .error (.exceptionVal (.obj fields)) := by
  simp only [last_commit, pySub, pyIn, bind, Except.bind]
  rcases hl : Json.lookup fields "message" with _ | v
  · simp [hl]
  · rcases v with _ | m | elems | f
    · simp [hl]
    · have hm : (m == "Git Repository is empty.") = false := by
        simp only [hasEmptyRepoMsg, hl] at h
        exact h
      simp [hl, hm]
    · simp [hl]
    · simp [hl]

/-- Witness for the amended C6 on the empty JSON object. -/
theorem last_commit_unexpected_object_raises_witness :
    last_commit (.obj []) = .error (.exceptionVal (.obj [])) :=
  last_commit_unexpected_object_raises [] rfl

/-- C7: on a well-formed commit response, the reported email is "none" iff the
author email contains the substring "github" (the substring test being real
infix occurrence), every other email passes through unchanged, and the commit
date and author display name are reported unchanged in both cases. -/
theorem last_commit_github_email_redacted (d e a : String) :
    last_commit (mkCommitResponse d e a)
      = .ok (.str d, .str (if strContains e "github" then "none" else e), .str a)
    ∧ (strContains e "github" = true ↔ List.IsInfix "github".data e.data) := by
  constructor
  · simp only [last_commit, mkCommitResponse, pySub, pyIn, Json.lookup, List.find?, bind,
      Except.bind, pure, Except.pure]
    by_cases h : strContains e "github" <;> simp [h]
  · exact infixScan_iff "github".data e.data

/-- C9: `run_query` returns the response's data payload iff the status is 200;
on any other status it raises an error whose message contains both the status
code and the query text. -/
theorem run_query_status_check (q : String) (status : Nat)
    (body : List (String × Json)) (d : Json)
    (hd : Json.lookup body "data" = some d) :
    (status = 200 → run_query q status (.obj body) = .ok d)
    ∧ (status ≠ 200 →
        run_query q status (.obj body)
          = .error (.exceptionMsg ("Query failed to run by returning code of "
              ++ toString status ++ ". " ++ q))
        ∧ List.IsInfix (toString status).data
            ("Query failed to run by returning code of " ++ toString status ++ ". " ++ q).data
        ∧ List.IsInfix q.data
            ("Query failed to run by returning code of " ++ toString status ++ ". " ++ q).data) := by
  constructor
  · intro h
    subst h
    simp [run_query, pySub, hd]
  · intro h
    have hb : (status == 200) = false := beq_eq_false_iff_ne.mpr h
    refine ⟨by simp [run_query, hb], ?_, ?_⟩
    · exact ⟨"Query failed to run by returning code of ".data, (". " ++ q).data, by simp⟩
    · exact ⟨("Query failed to run by returning code of " ++ toString status ++ ". ").data,
        [], by simp⟩

/-- Witness for C9: status 404 with a data field present. -/
theorem run_query_status_check_witness :
    run_query "query-text" 404 (.obj [("data", .null)])
      = .error (.exceptionMsg ("Query failed to run by returning code of "
          ++ toString (404 : Nat) ++ ". " ++ "query-text"))
    ∧ List.IsInfix (toString (404 : Nat)).data
        ("Query failed to run by returning code of "
          ++ toString (404 : Nat) ++ ". " ++ "query-text").data
    ∧ List.IsInfix "query-text".data
        ("Query failed to run by returning code of "
          ++ toString (404 : Nat) ++ ". " ++ "query-text").data :=
  (run_query_status_check "query-text" 404 [("data", .null)] .null rfl).2 (by decide)

/-- Counterexample for C1: the aggregator returns `(critical, high) = (0, 1)`
for a repository with one open HIGH alert, but the unpacking
`high, critical = getDependencyAlerts(...)` at line 81 swaps the components,
so the assembled record's third component is 0 — not the repository's open
HIGH count, which is 1.  The claim that the third component equals the open
HIGH count is false at this input. -/
theorem list_repos_third_component_counterexample :
    getDependencyAlerts cexPages = some (cexFa "repo-a")
    ∧ openHighCount cexAlerts = 1
    ∧ list_repos cexFc cexFa [cexListPage]
        = .ok [("repo-a", "2024-01-01T10:00:00Z", 0, 1, "dev@example.com", "Alice")]
    ∧ (0 : Nat) ≠ openHighCount cexAlerts :=
  ⟨rfl, rfl, rfl, by decide⟩

/-- C1 (amended): the assembled record is
`(name, commit_date, critical_count, high_count, email, author)` — because
`getDependencyAlerts` returns `(critical, high)` while line 81 unpacks it as
`high, critical`, the record's third component is the open CRITICAL count and
its fourth component is the open HIGH count. -/
theorem list_repos_record_components
    (fc : String → Except PyExc (String × String × String))
    (fa : String → Except PyExc (Nat × Nat)) (item : Json) (repo d e a : String)
    (ap : List AlertPage) (alerts : List Alert)
    (hname : pySub item (.key "name") = .ok (.str repo))
    (hfc : fc repo = .ok (d, e, a))
    (hcollect : collectAlerts ap = some (alerts, alerts.length))
    (hfa : getDependencyAlerts ap = some (fa repo)) :
    list_repos fc fa [⟨.arr [item], none⟩]
      = .ok [(repo, d, openCriticalCount alerts, openHighCount alerts, e, a)] := by
  have hfa2 : fa repo = .ok (openCriticalCount alerts, openHighCount alerts) := by
    have hga : getDependencyAlerts ap = some (.ok (countAlerts alerts)) := by
      simp [getDependencyAlerts, hcollect]
    rw [hga] at hfa
    have hinj := Option.some.inj hfa
    rw [← hinj, countAlerts_eq]
  cases item with
  | null => simp [pySub] at hname
  | str s => simp [pySub] at hname
  | arr l => simp [pySub] at hname
  | obj fields =>
    simp only [list_repos, breakCheck, isRateLimitMsg, isNotFoundMsg, pyIn, pyIterate,
      procItems, procItem, hname, hfc, hfa2, bind, Except.bind, pure, Except.pure,
      List.any_cons, List.any_nil]
    rfl

/-- Witness for the amended C1: one repository with one open HIGH alert; the
record carries `(critical, high) = (0, 1)` in components three and four. -/
theorem list_repos_record_components_witness :
    list_repos cexFc cexFa [⟨.arr [.obj [("name", .str "repo-a")]], none⟩]
      = .ok [("repo-a", "2024-01-01T10:00:00Z", openCriticalCount cexAlerts,
          openHighCount cexAlerts, "dev@example.com", "Alice")] :=
  list_repos_record_components cexFc cexFa (.obj [("name", .str "repo-a")])
    "repo-a" "2024-01-01T10:00:00Z" "dev@example.com" "Alice" cexPages cexAlerts
    rfl rfl rfl rfl

/-- C8: when a fetched page's body is an error object whose message indicates
rate-limit exhaustion or a not-found organization, the listing loop stops at
that page and returns exactly the records accumulated from the previously
processed pages — partial results are preserved and no error is raised from
that condition. -/
theorem list_repos_error_page_partial
    (fc : String → Except PyExc (String × String × String))
    (fa : String → Except PyExc (Nat × Nat)) (pre : List ListPage)
    (errPage : ListPage) (suf : List ListPage) (recs : List RepoRecord)
    (fields : List (String × Json)) (m : String)
    (hpre : ∀ p ∈ pre, breakCheck p.content = .ok false ∧ p.nextUrl.isSome = true)
    (hbody : errPage.content = .obj fields)
    (hmsg : Json.lookup fields "message" = some (.str m))
    (hkind : pyStartsWith m "API rate limit exceeded" = true ∨ m = "Not Found")
    (hrun : list_repos fc fa pre = .ok recs) :
    list_repos fc fa (pre ++ errPage :: suf) = .ok recs := by
  have herr : breakCheck errPage.content = .ok true := by
    rw [hbody, breakCheck_obj_msg fields m hmsg]
    rcases hkind with hk | hk
    · rw [hk]
      rfl
    · subst hk
      have hb : (pyStartsWith "Not Found" "API rate limit exceeded"
          || ("Not Found" == "Not Found")) = true := by decide
      rw [hb]
  rw [list_repos_append_break fc fa pre errPage suf hpre herr, hrun]

/-- Witness for C8: an empty accumulated prefix followed by a Not Found page. -/
theorem list_repos_error_page_partial_witness :
    list_repos (fun _ => .ok ("", "", "")) (fun _ => .ok (0, 0))
      ([] ++ (⟨.obj [("message", .str "Not Found")], none⟩ : ListPage) :: [])
      = .ok [] :=
  list_repos_error_page_partial (fun _ => .ok ("", "", "")) (fun _ => .ok (0, 0))
    [] ⟨.obj [("message", .str "Not Found")], none⟩ [] []
    [("message", .str "Not Found")] "Not Found"
    (fun p hp => absurd hp (List.not_mem_nil p)) rfl rfl (Or.inr rfl) rfl

/-- C4: the sort of line 167 emits a permutation of the record list that is
sorted in descending order by the commit-date field (the record's second
component), the order on commit dates — the sentinel included — being plain
lexical string comparison (`pyStrLe`, which coincides with the lexicographic
linear order on strings). -/
theorem sortRecords_perm_sorted_desc (rs : List RepoRecord) :
    (sortRecords rs).Perm rs
    ∧ List.Sorted (fun a b => recKey b ≤ recKey a) (sortRecords rs)
    ∧ (∀ s t : String, pyStrLe s t = true ↔ s ≤ t) := by
  refine ⟨List.perm_insertionSort recDesc rs, ?_, pyStrLe_le_iff⟩
  have hs := List.sorted_insertionSort recDesc rs
  exact List.Pairwise.imp (fun h => (pyStrLe_le_iff _ _).mp h) hs

/-- C10: the character "<" is greater than every decimal digit in the string
order used by the sort, so the sentinel "<empty_repo>" compares greater than
every commit-date string beginning with a digit; consequently, in the
descending-sorted output every sentinel record is placed before every record
whose commit date starts with a digit. -/
theorem sortRecords_sentinel_before_digit (rs : List RepoRecord) :
    (∀ s : String, startsWithDigit s = true → s < "<empty_repo>")
    ∧ ∀ (i j : Nat) (hi : i < (sortRecords rs).length) (hj : j < (sortRecords rs).length),
        startsWithDigit (recKey ((sortRecords rs).get ⟨i, hi⟩)) = true →
        recKey ((sortRecords rs).get ⟨j, hj⟩) = "<empty_repo>" →
        j < i := by
  refine ⟨startsWithDigit_lt_sentinel, ?_⟩
  intro i j hi hj hdig hsent
  by_contra hji
  have hij : i ≤ j := Nat.not_lt.mp hji
  rcases lt_or_eq_of_le hij with hlt2 | heq
  · have hs := List.sorted_insertionSort recDesc rs
    have hrel : recDesc ((sortRecords rs).get ⟨i, hi⟩) ((sortRecords rs).get ⟨j, hj⟩) :=
      List.Sorted.rel_get_of_lt hs (Fin.mk_lt_mk.mpr hlt2)
    have hle : recKey ((sortRecords rs).get ⟨j, hj⟩)
        ≤ recKey ((sortRecords rs).get ⟨i, hi⟩) := (pyStrLe_le_iff _ _).mp hrel
    rw [hsent] at hle
    have hlt := startsWithDigit_lt_sentinel _ hdig
    exact absurd (lt_of_le_of_lt hle hlt) (lt_irrefl _)
  · subst heq
    have h2 : recKey ((sortRecords rs).get ⟨i, hi⟩) = "<empty_repo>" := hsent
    rw [h2] at hdig
    exact absurd hdig (by decide)

/-- Witness for C10: with one dated record and one sentinel record, the sorted
output places the sentinel record at index 0 and the dated record at index 1. -/
theorem sortRecords_sentinel_before_digit_witness :
    (sortRecords wRecords).map recKey = ["<empty_repo>", "2023-01-01"]
    ∧ (0 : Nat) < 1 :=
  ⟨by decide,
    (sortRecords_sentinel_before_digit wRecords).2 1 0 (by decide) (by decide)
      (by decide) (by decide)⟩
